import Mathlib

/-!
# Verification of the lamina PMC kernel module

Shallow embedding of `src/kernel/fops.c` and `src/kernel/main.c` from the
lamina repository, a Linux kernel module that reprograms the six AMD
performance-monitoring counter (PMC) register pairs on a designated core.

Hardware MSR state is modelled as a map from MSR address to 64-bit value,
and every register access additionally appends to an explicit trace, so that
ordering properties (phase ordering, write order within the write phase,
absence of register accesses on early-exit paths) can be stated.
-/

/-- One hardware register access, recorded in program order. -/
inductive HwAccess where
  | msrRead (addr val : Nat)
  | msrWrite (addr val : Nat)
  | cr4Read (val : Nat)
deriving DecidableEq, Repr

/-- The MSR address an access touches (CR4 is not an MSR; it gets a
dummy address 0, which is not a PMC MSR address). -/
def HwAccess.addr : HwAccess → Nat
  | .msrRead a _ => a
  | .msrWrite a _ => a
  | .cr4Read _ => 0

/-- MSR state: address ↦ current 64-bit value. -/
def MsrState : Type := Nat → Nat

/-- Effect of `wrmsrl(addr, v)` on the MSR state. -/
def writeState (addr v : Nat) (s : MsrState) : MsrState :=
  fun a => if a = addr then v else s a

/-! ## Constants from `lamina.h` and the Linux headers -/

/-- `#define TARGET_CPU 0` (`lamina.h`). -/
def TARGET_CPU : Nat := 0

/-- `#define LAMINA_CMD_WRITECTL 0x00001000` (`lamina.h`). -/
def LAMINA_CMD_WRITECTL : Nat := 0x00001000

/-- Linux `#define X86_VENDOR_AMD 2` (`asm/processor.h`). -/
def X86_VENDOR_AMD : Nat := 2

/-- Linux `X86_CR4_PCE` = bit 8 of CR4 (`asm/processor-flags.h`). -/
def X86_CR4_PCE : Nat := 1 <<< 8

/-- Linux `EINVAL` = 22; `lamina_ioctl` initializes `res = -EINVAL`. -/
def EINVAL : Int := 22

/-- `static u32 PERF_CTL_MSR[6]` from `main.c`. -/
def PERF_CTL_MSR : Fin 6 → Nat
  | 0 => 0xc0010200
  | 1 => 0xc0010202
  | 2 => 0xc0010204
  | 3 => 0xc0010206
  | 4 => 0xc0010208
  | 5 => 0xc001020a

/-- `static u32 PERF_CTR_MSR[6]` from `main.c`. -/
def PERF_CTR_MSR : Fin 6 → Nat
  | 0 => 0xc0010201
  | 1 => 0xc0010203
  | 2 => 0xc0010205
  | 3 => 0xc0010207
  | 4 => 0xc0010209
  | 5 => 0xc001020b

/-! ## The disable-phase mask of `write_pmcs`

The C source computes `tmp[i] & ~(1 << 22)` where `tmp[i]` is `u64` and
`1 << 22` is a 32-bit `int`.  `~(1 << 22)` is the negative int with bit
pattern `0xFFBFFFFF`; the usual arithmetic conversions convert it to `u64`
by sign extension, so the effective 64-bit mask has bits 32..63 set. -/

/-- Two's-complement 32-bit pattern of the C int expression `~(1 << 22)`. -/
def notBit22_u32 : Nat := Nat.xor (1 <<< 22) (2 ^ 32 - 1)

/-- Conversion of a 32-bit int bit pattern to `u64`: sign extension when
bit 31 is set (C integer conversion of a negative `int` to `u64`). -/
def sext32_64 (x : Nat) : Nat := if x < 2 ^ 31 then x else x + (2 ^ 64 - 2 ^ 32)

/-- The effective 64-bit mask applied in the disable phase of `write_pmcs`. -/
def disableMask : Nat := sext32_64 notBit22_u32

/-! ## `struct lamina_msg` and the Engine `write_pmcs` (`fops.c`) -/

/-- `struct lamina_msg { __u64 ctl[6]; }` — the Request Envelope. -/
structure LaminaMsg where
  ctl : Fin 6 → Nat

/-- Result of one `write_pmcs` run: final MSR state plus the ordered trace
of every register access the function performed. -/
structure EngineOutcome where
  hw : MsrState
  trace : List HwAccess

/-- `write_pmcs` from `fops.c`, line by line: read the six PERF_CTL
registers, write each back with the C mask `~(1 << 22)` applied, write zero
to the six PERF_CTR registers, then write the six envelope words to the
PERF_CTL registers in source order to wrap up. -/
def write_pmcs (msg : LaminaMsg) (s : MsrState) : EngineOutcome :=
  -- Read PERF_CTL
  let t0 := s 0xc0010200
  let t1 := s 0xc0010202
  let t2 := s 0xc0010204
  let t3 := s 0xc0010206
  let t4 := s 0xc0010208
  let t5 := s 0xc001020a
  -- Clear enable bit
  let s1 := writeState 0xc0010200 (t0 &&& disableMask) s
  let s2 := writeState 0xc0010202 (t1 &&& disableMask) s1
  let s3 := writeState 0xc0010204 (t2 &&& disableMask) s2
  let s4 := writeState 0xc0010206 (t3 &&& disableMask) s3
  let s5 := writeState 0xc0010208 (t4 &&& disableMask) s4
  let s6 := writeState 0xc001020a (t5 &&& disableMask) s5
  -- Clear PERF_CTR
  let s7 := writeState 0xc0010201 0 s6
  let s8 := writeState 0xc0010203 0 s7
  let s9 := writeState 0xc0010205 0 s8
  let s10 := writeState 0xc0010207 0 s9
  let s11 := writeState 0xc0010209 0 s10
  let s12 := writeState 0xc001020b 0 s11
  -- Write PERF_CTL
  let s13 := writeState 0xc0010200 (msg.ctl 0) s12
  let s14 := writeState 0xc0010202 (msg.ctl 1) s13
  let s15 := writeState 0xc0010204 (msg.ctl 2) s14
  let s16 := writeState 0xc0010206 (msg.ctl 3) s15
  let s17 := writeState 0xc0010208 (msg.ctl 4) s16
  let s18 := writeState 0xc001020a (msg.ctl 5) s17
  { hw := s18
    trace :=
      [ .msrRead 0xc0010200 t0, .msrRead 0xc0010202 t1,
        .msrRead 0xc0010204 t2, .msrRead 0xc0010206 t3,
        .msrRead 0xc0010208 t4, .msrRead 0xc001020a t5,
        .msrWrite 0xc0010200 (t0 &&& disableMask),
        .msrWrite 0xc0010202 (t1 &&& disableMask),
        .msrWrite 0xc0010204 (t2 &&& disableMask),
        .msrWrite 0xc0010206 (t3 &&& disableMask),
        .msrWrite 0xc0010208 (t4 &&& disableMask),
        .msrWrite 0xc001020a (t5 &&& disableMask),
        .msrWrite 0xc0010201 0, .msrWrite 0xc0010203 0,
        .msrWrite 0xc0010205 0, .msrWrite 0xc0010207 0,
        .msrWrite 0xc0010209 0, .msrWrite 0xc001020b 0,
        .msrWrite 0xc0010200 (msg.ctl 0), .msrWrite 0xc0010202 (msg.ctl 1),
        .msrWrite 0xc0010204 (msg.ctl 2), .msrWrite 0xc0010206 (msg.ctl 3),
        .msrWrite 0xc0010208 (msg.ctl 4), .msrWrite 0xc001020a (msg.ctl 5) ] }

/-! ## The Dispatcher `lamina_ioctl` (`fops.c`)

`copy_from_user` is modelled by its observable outcome on one call: the
number of bytes it failed to copy (0 on success) and the contents of the
global Staging Buffer `msg` after the copy attempt.  `lamina_ioctl` takes
the Staging Buffer's prior contents and the MSR state of the target core,
and reports whether `write_pmcs` was dispatched (`smp_call_function_single`
runs it synchronously on `TARGET_CPU` and blocks until completion). -/

/-- Outcome of one `copy_from_user(&msg, arg, 48)` call. -/
structure UserCopy where
  /-- Return value of `copy_from_user`: bytes NOT copied, 0 on success. -/
  uncopied : Nat
  /-- Contents of the Staging Buffer after the copy attempt. -/
  result : LaminaMsg

/-- Observable result of one `lamina_ioctl` call. -/
structure IoctlOutcome where
  /-- Value returned to the caller. -/
  res : Int
  /-- Staging Buffer (global `msg`) contents after the call. -/
  msg : LaminaMsg
  /-- Whether `write_pmcs` was executed on the target core. -/
  engineInvoked : Bool
  /-- MSR state of the target core after the call. -/
  hw : MsrState
  /-- Register accesses performed by the Engine during the call. -/
  trace : List HwAccess

/-- `lamina_ioctl` from `fops.c`: `res` starts at `-EINVAL`; on
`LAMINA_CMD_WRITECTL` it is assigned `copy_from_user`'s return value and
`smp_call_function_single(TARGET_CPU, write_pmcs, &msg, true)` is called
unconditionally afterwards; any other command falls through to `default`
and returns `-EINVAL` untouched. -/
def lamina_ioctl (cmd : Nat) (user : UserCopy) (msg0 : LaminaMsg)
    (hw : MsrState) : IoctlOutcome :=
  if cmd = LAMINA_CMD_WRITECTL then
    let res : Int := user.uncopied
    let msg1 := user.result
    let out := write_pmcs msg1 hw
    { res := res, msg := msg1, engineInvoked := true,
      hw := out.hw, trace := out.trace }
  else
    { res := -EINVAL, msg := msg0, engineInvoked := false,
      hw := hw, trace := [] }

/-! ## The Safety Gate: `init_pmcs` and `lamina_init` (`main.c`) -/

/-- The distinct `pr_err`/`pr_info` messages of `main.c`, which are the
only observable that distinguishes the failure causes (every failure path
returns the same `-1`). -/
inductive LogMsg where
  | invalidMsr (addr : Nat)
  | ctlEnabled (i : Nat)
  | allMustBeDisabled
  | unsupportedCpu
  | pceUnset
  | devRegisterFailed
  | loaded
deriving DecidableEq, Repr

/-- Result of `init_pmcs`: return value, final MSR state, register-access
trace and log output. -/
structure PmcsOutcome where
  ret : Int
  hw : MsrState
  trace : List HwAccess
  log : List LogMsg

/-- The `for (i = 0; i < 6; i++)` loop of `init_pmcs`, as iteration over
the remaining slot indices.  `readErr addr` models `rdmsrl_safe_on_cpu`
failing on `addr`; on a successful read the slot's enable bit (bit 22) is
tested, and a disabled slot has its PERF_CTL and PERF_CTR written to zero
before the loop advances. -/
def init_pmcsLoop (readErr : Nat → Bool) : List (Fin 6) → MsrState →
    PmcsOutcome
  | [], hw => { ret := 0, hw := hw, trace := [], log := [] }
  | i :: rest, hw =>
    let addr := PERF_CTL_MSR i
    if readErr addr then
      { ret := -1, hw := hw, trace := [], log := [.invalidMsr addr] }
    else
      let val := hw addr
      if val &&& (1 <<< 22) ≠ 0 then
        { ret := -1, hw := hw, trace := [.msrRead addr val],
          log := [.ctlEnabled i.val, .allMustBeDisabled] }
      else
        let hw1 := writeState addr 0 hw
        let hw2 := writeState (PERF_CTR_MSR i) 0 hw1
        let r := init_pmcsLoop readErr rest hw2
        { ret := r.ret, hw := r.hw,
          trace := .msrRead addr val :: .msrWrite addr 0 ::
            .msrWrite (PERF_CTR_MSR i) 0 :: r.trace,
          log := r.log }

/-- `init_pmcs` from `main.c`: the loop over slots 0..5. -/
def init_pmcs (readErr : Nat → Bool) (hw : MsrState) : PmcsOutcome :=
  init_pmcsLoop readErr [0, 1, 2, 3, 4, 5] hw

/-- Result of `lamina_init`: return value, final MSR state, hardware
accesses, log output, and whether the misc device was registered. -/
structure InitOutcome where
  ret : Int
  hw : MsrState
  trace : List HwAccess
  log : List LogMsg
  devRegistered : Bool

/-- `lamina_init` from `main.c`: vendor check on `boot_cpu_data`, then the
CR4.PCE check via `native_read_cr4()`, then `init_pmcs()`, then
`misc_register` (its success modelled by the `miscOk` flag). -/
def lamina_init (vendor : Nat) (cr4 : Nat) (readErr : Nat → Bool)
    (hw : MsrState) (miscOk : Bool) : InitOutcome :=
  if ¬ vendor = X86_VENDOR_AMD then
    { ret := -1, hw := hw, trace := [], log := [.unsupportedCpu],
      devRegistered := false }
  else if cr4 &&& X86_CR4_PCE = 0 then
    { ret := -1, hw := hw, trace := [.cr4Read cr4], log := [.pceUnset],
      devRegistered := false }
  else
    let r := init_pmcs readErr hw
    if r.ret ≠ 0 then
      { ret := -1, hw := r.hw, trace := .cr4Read cr4 :: r.trace,
        log := r.log, devRegistered := false }
    else if miscOk = false then
      { ret := -1, hw := r.hw, trace := .cr4Read cr4 :: r.trace,
        log := r.log ++ [.devRegisterFailed], devRegistered := false }
    else
      { ret := 0, hw := r.hw, trace := .cr4Read cr4 :: r.trace,
        log := r.log ++ [.loaded], devRegistered := true }

/-! ## Helper lemmas about `write_pmcs` -/

/-- After `write_pmcs`, each PERF_CTL register holds the corresponding
envelope word: the write phase overwrites every value left by the disable
phase. -/
lemma write_pmcs_hw_ctl (msg : LaminaMsg) (s : MsrState) (i : Fin 6) :
    (write_pmcs msg s).hw (PERF_CTL_MSR i) = msg.ctl i := by
  fin_cases i <;> simp [write_pmcs, writeState, PERF_CTL_MSR]

/-- After `write_pmcs`, each PERF_CTR register is zero: the clear phase
zeroes it and the write phase touches only PERF_CTL addresses. -/
lemma write_pmcs_hw_ctr (msg : LaminaMsg) (s : MsrState) (i : Fin 6) :
    (write_pmcs msg s).hw (PERF_CTR_MSR i) = 0 := by
  fin_cases i <;> simp [write_pmcs, writeState, PERF_CTR_MSR]

/-- The addresses accessed by `write_pmcs`, in program order: six PERF_CTL
reads, six PERF_CTL disable writes, six PERF_CTR clear writes, six PERF_CTL
writes — the last six in slot-index order 0..5. -/
lemma write_pmcs_trace_addrs (msg : LaminaMsg) (s : MsrState) :
    (write_pmcs msg s).trace.map HwAccess.addr =
      [0xc0010200, 0xc0010202, 0xc0010204, 0xc0010206, 0xc0010208, 0xc001020a,
       0xc0010200, 0xc0010202, 0xc0010204, 0xc0010206, 0xc0010208, 0xc001020a,
       0xc0010201, 0xc0010203, 0xc0010205, 0xc0010207, 0xc0010209, 0xc001020b,
       0xc0010200, 0xc0010202, 0xc0010204, 0xc0010206, 0xc0010208, 0xc001020a] := by
  rfl

/-! ## Claim theorems about the Dispatcher and the Safety Gate -/

/-- C2 (code bug): with the recognized command and a failed copy
(`copy_from_user` returns 48, nothing copied), `lamina_ioctl` still invokes
`write_pmcs` and returns the positive leftover byte count instead of an
error — the Engine is not protected from a failed copy. -/
theorem ioctl_copy_fail_still_invokes_engine :
    (lamina_ioctl LAMINA_CMD_WRITECTL ⟨48, ⟨fun _ => 0⟩⟩ ⟨fun _ => 0⟩
        (fun _ => 0)).engineInvoked = true ∧
      (lamina_ioctl LAMINA_CMD_WRITECTL ⟨48, ⟨fun _ => 0⟩⟩ ⟨fun _ => 0⟩
        (fun _ => 0)).res = 48 := by
  decide

/-- C5 (code bug): on a failed copy of the recognized command the value
returned to the caller is the positive count 48 — neither negative (an
error status) nor zero (success). -/
theorem ioctl_copy_fail_returns_positive :
    (lamina_ioctl LAMINA_CMD_WRITECTL ⟨48, ⟨fun _ => 0⟩⟩ ⟨fun _ => 0⟩
        (fun _ => 0)).res = 48 ∧
      ¬ (lamina_ioctl LAMINA_CMD_WRITECTL ⟨48, ⟨fun _ => 0⟩⟩ ⟨fun _ => 0⟩
        (fun _ => 0)).res < 0 ∧
      (lamina_ioctl LAMINA_CMD_WRITECTL ⟨48, ⟨fun _ => 0⟩⟩ ⟨fun _ => 0⟩
        (fun _ => 0)).res ≠ 0 := by
  decide

/-- C6: any command other than `LAMINA_CMD_WRITECTL` returns `-EINVAL`
without invoking `write_pmcs`, without touching the Staging Buffer and
without any register access. -/
theorem ioctl_unknown_cmd (cmd : Nat) (user : UserCopy) (msg0 : LaminaMsg)
    (hw : MsrState) (h : cmd ≠ LAMINA_CMD_WRITECTL) :
    (lamina_ioctl cmd user msg0 hw).res = -EINVAL ∧
      (lamina_ioctl cmd user msg0 hw).engineInvoked = false ∧
      (lamina_ioctl cmd user msg0 hw).msg = msg0 ∧
      (lamina_ioctl cmd user msg0 hw).hw = hw ∧
      (lamina_ioctl cmd user msg0 hw).trace = [] := by
  simp [lamina_ioctl, h]

/-- C6 witness: command code 0 is rejected with `-EINVAL` and no effect. -/
theorem ioctl_unknown_cmd_witness :
    (0 : Nat) ≠ LAMINA_CMD_WRITECTL ∧
      ((lamina_ioctl 0 ⟨0, ⟨fun _ => 1⟩⟩ ⟨fun _ => 2⟩ (fun _ => 3)).res = -EINVAL ∧
        (lamina_ioctl 0 ⟨0, ⟨fun _ => 1⟩⟩ ⟨fun _ => 2⟩ (fun _ => 3)).engineInvoked = false ∧
        (lamina_ioctl 0 ⟨0, ⟨fun _ => 1⟩⟩ ⟨fun _ => 2⟩ (fun _ => 3)).msg = ⟨fun _ => 2⟩ ∧
        (lamina_ioctl 0 ⟨0, ⟨fun _ => 1⟩⟩ ⟨fun _ => 2⟩ (fun _ => 3)).hw = (fun _ => 3) ∧
        (lamina_ioctl 0 ⟨0, ⟨fun _ => 1⟩⟩ ⟨fun _ => 2⟩ (fun _ => 3)).trace = []) :=
  ⟨by decide, ioctl_unknown_cmd 0 ⟨0, ⟨fun _ => 1⟩⟩ ⟨fun _ => 2⟩ (fun _ => 3) (by decide)⟩

/-- C9: on a processor whose vendor is not the validated AMD family,
`lamina_init` fails with the `unsupported CPU` diagnostic, performs no
hardware register access at all (neither CR4 nor any MSR), leaves the MSR
state untouched and registers no device. -/
theorem vendor_check_precedes_register_access (vendor cr4 : Nat)
    (readErr : Nat → Bool) (hw : MsrState) (miscOk : Bool)
    (h : vendor ≠ X86_VENDOR_AMD) :
    (lamina_init vendor cr4 readErr hw miscOk).ret = -1 ∧
      (lamina_init vendor cr4 readErr hw miscOk).log = [.unsupportedCpu] ∧
      (lamina_init vendor cr4 readErr hw miscOk).trace = [] ∧
      (lamina_init vendor cr4 readErr hw miscOk).hw = hw ∧
      (lamina_init vendor cr4 readErr hw miscOk).devRegistered = false := by
  simp [lamina_init, h]

/-- C9 witness: an Intel CPU (`X86_VENDOR_INTEL` = 0) is refused with no
register access. -/
theorem vendor_check_witness :
    (0 : Nat) ≠ X86_VENDOR_AMD ∧
      ((lamina_init 0 0x100 (fun _ => false) (fun _ => 7) true).ret = -1 ∧
        (lamina_init 0 0x100 (fun _ => false) (fun _ => 7) true).log = [.unsupportedCpu] ∧
        (lamina_init 0 0x100 (fun _ => false) (fun _ => 7) true).trace = [] ∧
        (lamina_init 0 0x100 (fun _ => false) (fun _ => 7) true).hw = (fun _ => 7) ∧
        (lamina_init 0 0x100 (fun _ => false) (fun _ => 7) true).devRegistered = false) :=
  ⟨by decide, vendor_check_precedes_register_access 0 0x100 (fun _ => false)
    (fun _ => 7) true (by decide)⟩

/-! ## The disable-phase mask (C8) -/

/-- Bit 22 of the effective 64-bit mask is clear. -/
lemma disableMask_bit22 : disableMask.testBit 22 = false := by decide

/-- Every bit of the effective 64-bit mask other than bit 22 is set — in
particular bits 32..63, because the negative 32-bit `int` is converted to
`u64` by sign extension. -/
lemma disableMask_bit_ne (b : Nat) (hb : b < 64) (hne : b ≠ 22) :
    disableMask.testBit b = true := by
  revert hne
  revert hb
  revert b
  decide

/-- C8: the value written back in the disable phase of `write_pmcs` is the
value read from the slot's PERF_CTL register masked with `disableMask`
(trace entry `6 + i`), and that masking clears exactly bit 22: every one of
the other 63 bits of the 64-bit value — bits 32..63 included — is
unchanged. -/
theorem disable_phase_clears_only_bit22 (msg : LaminaMsg) (s : MsrState)
    (i : Fin 6) (h : s (PERF_CTL_MSR i) < 2 ^ 64) :
    (write_pmcs msg s).trace.get? (6 + i.val) =
        some (.msrWrite (PERF_CTL_MSR i) (s (PERF_CTL_MSR i) &&& disableMask)) ∧
      (s (PERF_CTL_MSR i) &&& disableMask).testBit 22 = false ∧
      ∀ b, b < 64 → b ≠ 22 →
        (s (PERF_CTL_MSR i) &&& disableMask).testBit b =
          (s (PERF_CTL_MSR i)).testBit b := by
  refine ⟨?_, ?_, ?_⟩
  · fin_cases i <;> rfl
  · simp [Nat.testBit_land, disableMask_bit22]
  · intro b hb hne
    simp [Nat.testBit_land, disableMask_bit_ne b hb hne]

/-- C8 witness: masking the all-ones 64-bit value in the disable phase
clears bit 22 and preserves all other 63 bits. -/
theorem disable_phase_clears_only_bit22_witness :
    (fun _ => 2 ^ 64 - 1 : MsrState) (PERF_CTL_MSR 0) < 2 ^ 64 ∧
      ((write_pmcs ⟨fun _ => 0⟩ (fun _ => 2 ^ 64 - 1)).trace.get? 6 =
          some (.msrWrite (PERF_CTL_MSR 0)
            ((fun _ => 2 ^ 64 - 1 : MsrState) (PERF_CTL_MSR 0) &&& disableMask)) ∧
        ((fun _ => 2 ^ 64 - 1 : MsrState) (PERF_CTL_MSR 0) &&& disableMask).testBit 22 = false ∧
        ∀ b, b < 64 → b ≠ 22 →
          ((fun _ => 2 ^ 64 - 1 : MsrState) (PERF_CTL_MSR 0) &&& disableMask).testBit b =
            ((fun _ => 2 ^ 64 - 1 : MsrState) (PERF_CTL_MSR 0)).testBit b) :=
  ⟨by decide, disable_phase_clears_only_bit22 ⟨fun _ => 0⟩ (fun _ => 2 ^ 64 - 1) 0 (by decide)⟩

/-! ## The Safety Gate loop (C4) -/

/-- C4 counterexample: registers with slot 0 disabled (value 5) and slot 1
enabled (bit 22 set).  `init_pmcs` detects the violation at slot 1 and
fails, but it has already zeroed slot 0's control register (5 ↦ 0): the
failure is not mutation-free, so "either all six slots are zeroed or none
are" is false. -/
theorem init_pmcs_not_all_or_nothing :
    (init_pmcs (fun _ => false)
        (fun a => if a = 0xc0010202 then 2 ^ 22 else 5)).ret = -1 ∧
      (fun a => if a = 0xc0010202 then 2 ^ 22 else 5 : MsrState) 0xc0010200 = 5 ∧
      (init_pmcs (fun _ => false)
        (fun a => if a = 0xc0010202 then 2 ^ 22 else 5)).hw 0xc0010200 = 0 := by
  decide

/-- Numeric form of the enable-bit test constant `1 << 22`. -/
lemma shift22_eq : (1 <<< 22 : Nat) = 4194304 := rfl

/-- C4 (amended): when slot `j` is the first slot whose PERF_CTL register
has the enable bit (bit 22) set, `init_pmcs` fails with `-1` and the
`PERF_CTL[j] is enabled` diagnostic, but the failure is not mutation-free:
every slot before `j` has already had its PERF_CTL and PERF_CTR registers
zeroed, while slot `j` and all later slots are left untouched. -/
theorem init_pmcs_first_violation (readErr : Nat → Bool) (hw : MsrState)
    (j : Fin 6) (hre : ∀ a, readErr a = false)
    (hj : hw (PERF_CTL_MSR j) &&& (1 <<< 22) ≠ 0)
    (hlt : ∀ i : Fin 6, i < j → hw (PERF_CTL_MSR i) &&& (1 <<< 22) = 0) :
    (init_pmcs readErr hw).ret = -1 ∧
      (init_pmcs readErr hw).log = [.ctlEnabled j.val, .allMustBeDisabled] ∧
      (∀ i : Fin 6, i < j →
        (init_pmcs readErr hw).hw (PERF_CTL_MSR i) = 0 ∧
          (init_pmcs readErr hw).hw (PERF_CTR_MSR i) = 0) ∧
      (∀ i : Fin 6, j ≤ i →
        (init_pmcs readErr hw).hw (PERF_CTL_MSR i) = hw (PERF_CTL_MSR i) ∧
          (init_pmcs readErr hw).hw (PERF_CTR_MSR i) = hw (PERF_CTR_MSR i)) := by
  fin_cases j
  · simp only [PERF_CTL_MSR] at hj
    rw [shift22_eq] at hj
    refine ⟨by simp [init_pmcs, init_pmcsLoop, hre, hj, writeState, PERF_CTL_MSR, PERF_CTR_MSR],
      by simp [init_pmcs, init_pmcsLoop, hre, hj, writeState, PERF_CTL_MSR, PERF_CTR_MSR], ?_, ?_⟩
    · intro i hi
      exact absurd hi (by simp)
    · intro i hi
      fin_cases i <;> first
        | exact absurd hi (by decide)
        | simp [init_pmcs, init_pmcsLoop, hre, hj, writeState, PERF_CTL_MSR, PERF_CTR_MSR]
  · have h0 := hlt 0 (by decide)
    simp only [PERF_CTL_MSR] at hj h0
    rw [shift22_eq] at hj h0
    refine ⟨by simp [init_pmcs, init_pmcsLoop, hre, hj, h0, writeState, PERF_CTL_MSR, PERF_CTR_MSR],
      by simp [init_pmcs, init_pmcsLoop, hre, hj, h0, writeState, PERF_CTL_MSR, PERF_CTR_MSR], ?_, ?_⟩
    · intro i hi
      fin_cases i <;> first
        | exact absurd hi (by decide)
        | simp [init_pmcs, init_pmcsLoop, hre, hj, h0, writeState, PERF_CTL_MSR, PERF_CTR_MSR]
    · intro i hi
      fin_cases i <;> first
        | exact absurd hi (by decide)
        | simp [init_pmcs, init_pmcsLoop, hre, hj, h0, writeState, PERF_CTL_MSR, PERF_CTR_MSR]
  · have h0 := hlt 0 (by decide)
    have h1 := hlt 1 (by decide)
    simp only [PERF_CTL_MSR] at hj h0 h1
    rw [shift22_eq] at hj h0 h1
    refine ⟨by simp [init_pmcs, init_pmcsLoop, hre, hj, h0, h1, writeState, PERF_CTL_MSR, PERF_CTR_MSR],
      by simp [init_pmcs, init_pmcsLoop, hre, hj, h0, h1, writeState, PERF_CTL_MSR, PERF_CTR_MSR], ?_, ?_⟩
    · intro i hi
      fin_cases i <;> first
        | exact absurd hi (by decide)
        | simp [init_pmcs, init_pmcsLoop, hre, hj, h0, h1, writeState, PERF_CTL_MSR, PERF_CTR_MSR]
    · intro i hi
      fin_cases i <;> first
        | exact absurd hi (by decide)
        | simp [init_pmcs, init_pmcsLoop, hre, hj, h0, h1, writeState, PERF_CTL_MSR, PERF_CTR_MSR]
  · have h0 := hlt 0 (by decide)
    have h1 := hlt 1 (by decide)
    have h2 := hlt 2 (by decide)
    simp only [PERF_CTL_MSR] at hj h0 h1 h2
    rw [shift22_eq] at hj h0 h1 h2
    refine ⟨by simp [init_pmcs, init_pmcsLoop, hre, hj, h0, h1, h2, writeState, PERF_CTL_MSR, PERF_CTR_MSR],
      by (simp [init_pmcs, init_pmcsLoop, hre, hj, h0, h1, h2, writeState, PERF_CTL_MSR, PERF_CTR_MSR]; decide), ?_, ?_⟩
    · intro i hi
      fin_cases i <;> first
        | exact absurd hi (by decide)
        | simp [init_pmcs, init_pmcsLoop, hre, hj, h0, h1, h2, writeState, PERF_CTL_MSR, PERF_CTR_MSR]
    · intro i hi
      fin_cases i <;> first
        | exact absurd hi (by decide)
        | simp [init_pmcs, init_pmcsLoop, hre, hj, h0, h1, h2, writeState, PERF_CTL_MSR, PERF_CTR_MSR]
  · have h0 := hlt 0 (by decide)
    have h1 := hlt 1 (by decide)
    have h2 := hlt 2 (by decide)
    have h3 := hlt 3 (by decide)
    simp only [PERF_CTL_MSR] at hj h0 h1 h2 h3
    rw [shift22_eq] at hj h0 h1 h2 h3
    refine ⟨by simp [init_pmcs, init_pmcsLoop, hre, hj, h0, h1, h2, h3, writeState, PERF_CTL_MSR, PERF_CTR_MSR],
      by (simp [init_pmcs, init_pmcsLoop, hre, hj, h0, h1, h2, h3, writeState, PERF_CTL_MSR, PERF_CTR_MSR]; decide), ?_, ?_⟩
    · intro i hi
      fin_cases i <;> first
        | exact absurd hi (by decide)
        | simp [init_pmcs, init_pmcsLoop, hre, hj, h0, h1, h2, h3, writeState, PERF_CTL_MSR, PERF_CTR_MSR]
    · intro i hi
      fin_cases i <;> first
        | exact absurd hi (by decide)
        | simp [init_pmcs, init_pmcsLoop, hre, hj, h0, h1, h2, h3, writeState, PERF_CTL_MSR, PERF_CTR_MSR]
  · have h0 := hlt 0 (by decide)
    have h1 := hlt 1 (by decide)
    have h2 := hlt 2 (by decide)
    have h3 := hlt 3 (by decide)
    have h4 := hlt 4 (by decide)
    simp only [PERF_CTL_MSR] at hj h0 h1 h2 h3 h4
    rw [shift22_eq] at hj h0 h1 h2 h3 h4
    refine ⟨by simp [init_pmcs, init_pmcsLoop, hre, hj, h0, h1, h2, h3, h4, writeState, PERF_CTL_MSR, PERF_CTR_MSR],
      by (simp [init_pmcs, init_pmcsLoop, hre, hj, h0, h1, h2, h3, h4, writeState, PERF_CTL_MSR, PERF_CTR_MSR]; decide), ?_, ?_⟩
    · intro i hi
      fin_cases i <;> first
        | exact absurd hi (by decide)
        | simp [init_pmcs, init_pmcsLoop, hre, hj, h0, h1, h2, h3, h4, writeState, PERF_CTL_MSR, PERF_CTR_MSR]
    · intro i hi
      fin_cases i <;> first
        | exact absurd hi (by decide)
        | simp [init_pmcs, init_pmcsLoop, hre, hj, h0, h1, h2, h3, h4, writeState, PERF_CTL_MSR, PERF_CTR_MSR]

/-- C4 (amended) witness: slot 0 disabled (value 5), slot 1 enabled —
`init_pmcs` stops at slot 1 having zeroed exactly slot 0's pair. -/
theorem init_pmcs_first_violation_witness :
    (∀ a, (fun _ : Nat => false) a = false) ∧
      ((fun a => if a = 0xc0010202 then 2 ^ 22 else 5 : MsrState)
          (PERF_CTL_MSR 1) &&& (1 <<< 22) ≠ 0) ∧
      (∀ i : Fin 6, i < 1 →
        (fun a => if a = 0xc0010202 then 2 ^ 22 else 5 : MsrState)
          (PERF_CTL_MSR i) &&& (1 <<< 22) = 0) ∧
      ((init_pmcs (fun _ => false)
            (fun a => if a = 0xc0010202 then 2 ^ 22 else 5)).ret = -1 ∧
        (init_pmcs (fun _ => false)
            (fun a => if a = 0xc0010202 then 2 ^ 22 else 5)).log =
          [.ctlEnabled (1 : Fin 6).val, .allMustBeDisabled] ∧
        (∀ i : Fin 6, i < 1 →
          (init_pmcs (fun _ => false)
              (fun a => if a = 0xc0010202 then 2 ^ 22 else 5)).hw (PERF_CTL_MSR i) = 0 ∧
            (init_pmcs (fun _ => false)
              (fun a => if a = 0xc0010202 then 2 ^ 22 else 5)).hw (PERF_CTR_MSR i) = 0) ∧
        (∀ i : Fin 6, 1 ≤ i →
          (init_pmcs (fun _ => false)
              (fun a => if a = 0xc0010202 then 2 ^ 22 else 5)).hw (PERF_CTL_MSR i) =
            (fun a => if a = 0xc0010202 then 2 ^ 22 else 5 : MsrState) (PERF_CTL_MSR i) ∧
            (init_pmcs (fun _ => false)
              (fun a => if a = 0xc0010202 then 2 ^ 22 else 5)).hw (PERF_CTR_MSR i) =
              (fun a => if a = 0xc0010202 then 2 ^ 22 else 5 : MsrState) (PERF_CTR_MSR i))) :=
  ⟨fun _ => rfl, by decide, by decide,
    init_pmcs_first_violation (fun _ => false)
      (fun a => if a = 0xc0010202 then 2 ^ 22 else 5) 1
      (fun _ => rfl) (by decide) (by decide)⟩

/-! ## Claim theorems about the Engine's write phase and final state -/

/-- C1 counterexample: on a concrete call (zero envelope, zeroed registers)
the write-phase accesses of `write_pmcs` (trace entries 18..23) are NOT in
the claimed odd-before-even order (1,0),(3,2),(5,4). -/
theorem write_phase_not_odd_first :
    ¬ ((write_pmcs ⟨fun _ => 0⟩ (fun _ => 0)).trace.drop 18).map HwAccess.addr =
      [0xc0010202, 0xc0010200, 0xc0010206, 0xc0010204, 0xc001020a, 0xc0010208] := by
  decide

/-- C1 (amended): in every `write_pmcs` call the write phase writes the six
PERF_CTL registers in slot-index order 0,1,2,3,4,5 — within each pair
(0,1),(2,3),(4,5) the even slot's control register is written before the
odd slot's. -/
theorem write_phase_slot_order (msg : LaminaMsg) (s : MsrState) :
    ((write_pmcs msg s).trace.drop 18).map HwAccess.addr =
      [0xc0010200, 0xc0010202, 0xc0010204, 0xc0010206, 0xc0010208, 0xc001020a] := by
  rfl

/-- C3: after `write_pmcs` completes, each of the six PERF_CTL registers
equals the corresponding envelope word and all six PERF_CTR registers are
zero: the clear phase precedes the write phase and the write phase touches
no PERF_CTR address. -/
theorem program_sets_ctl_clears_ctr (msg : LaminaMsg) (s : MsrState) (i : Fin 6) :
    (write_pmcs msg s).hw (PERF_CTL_MSR i) = msg.ctl i ∧
      (write_pmcs msg s).hw (PERF_CTR_MSR i) = 0 :=
  ⟨write_pmcs_hw_ctl msg s i, write_pmcs_hw_ctr msg s i⟩

/-- C7: `write_pmcs` is idempotent on the twelve PMC registers — running
the same envelope twice in succession leaves every PERF_CTL and PERF_CTR
register exactly as one run does. -/
theorem program_idempotent (msg : LaminaMsg) (s : MsrState) (i : Fin 6) :
    (write_pmcs msg (write_pmcs msg s).hw).hw (PERF_CTL_MSR i) =
        (write_pmcs msg s).hw (PERF_CTL_MSR i) ∧
      (write_pmcs msg (write_pmcs msg s).hw).hw (PERF_CTR_MSR i) =
        (write_pmcs msg s).hw (PERF_CTR_MSR i) := by
  simp [write_pmcs_hw_ctl, write_pmcs_hw_ctr]

/-- C10: the final PMC register state of `write_pmcs` depends only on the
envelope — two runs of the same envelope from any two initial register
states agree on all six PERF_CTL and all six PERF_CTR registers. -/
theorem program_final_state_envelope_only (msg : LaminaMsg)
    (s1 s2 : MsrState) (i : Fin 6) :
    (write_pmcs msg s1).hw (PERF_CTL_MSR i) = (write_pmcs msg s2).hw (PERF_CTL_MSR i) ∧
      (write_pmcs msg s1).hw (PERF_CTR_MSR i) = (write_pmcs msg s2).hw (PERF_CTR_MSR i) := by
  simp [write_pmcs_hw_ctl, write_pmcs_hw_ctr]
